import Mathlib

/-!
Shallow embedding of `src/viewer/physics_sandbox.cpp` (Granite physics
sandbox viewer).

The scene graph, entity pool and the physics world's observable surface
(handles, handle→node association, handle→parent-entity registration,
point constraints, force/impulse submission) are modelled as one explicit
state record `AppState`.  Scene-graph and physics operations are Lean
functions mirroring the C++ calls one-to-one; external effects that the
program only submits (impulses, forces, `iterate`) are recorded in logs so
that ordering and content can be stated.  The ray query
`query_closest_hit_ray` is external: its result is a parameter of the
event handlers.  `float` vectors are modelled over `ℚ`; every literal in
the source (20.0, 0.05, 2.5, …) is exact in `ℚ`.
-/

/-- A 3-component vector over `ℚ` (models `vec3`). -/
structure Vec3 where
  x : ℚ
  y : ℚ
  z : ℚ
deriving DecidableEq, Repr

/-- Componentwise addition of `Vec3` (models `vec3:: operator+`). -/
def Vec3.add (a b : Vec3) : Vec3 := ⟨a.x + b.x, a.y + b.y, a.z + b.z⟩

/-- Scene node: transform (translation, scale), parent/child links and the
cached-world-transform validity bit (`invalidate_cached_transform` clears
it, `update_cached_transforms` sets it). -/
structure Node where
  id : Nat
  translation : Vec3
  scale : Vec3
  parent : Option Nat
  children : List Nat
  cachedValid : Bool
deriving DecidableEq, Repr

/-- The renderable meshes the sandbox instantiates (member handles `cube`,
`sphere`, `cone`, `cylinder`, `plane`, `gltf_mesh`). -/
inductive MeshKind where
  | cubeM | sphereM | coneM | cylinderM | planeM | gltfM
deriving DecidableEq, Repr

/-- An entity of the scene's entity pool: optionally a renderable component
attached to a node, optionally a `PhysicsComponent` holding one handle,
optionally a `CollisionMeshComponent`. -/
structure Entity where
  id : Nat
  node : Option Nat
  physHandle : Option Nat
  mesh : Option MeshKind
  collisionMesh : Bool
deriving DecidableEq, Repr

/-- `PhysicsSystem::ObjectType` (the sandbox only sets `Kinematic`). -/
inductive ObjType where
  | Dynamic | Kinematic
deriving DecidableEq, Repr

/-- `PhysicsSystem::MaterialInfo`: the recipe passed at body creation.
Default field values stand for the default-constructed `MaterialInfo {}`;
no theorem below observes them. -/
structure MaterialInfo where
  mass : ℚ := 1
  restitution : ℚ := 0
  angular_damping : ℚ := 0
  linear_damping : ℚ := 0
  objectType : ObjType := ObjType.Dynamic
deriving DecidableEq, Repr

/-- Body shape recorded for each physics handle. -/
inductive Shape where
  | cube
  | sphere
  | cylinder (height radius : ℚ)
  | meshShape (index : Nat)
  | infinitePlane (a b c d : ℚ)
deriving DecidableEq, Repr

/-- A physics-world body: opaque handle id, shape, the associated scene
node (`get_scene_node`), and the owning entity registered via
`set_handle_parent`. -/
structure PhysBody where
  id : Nat
  shape : Shape
  node : Option Nat
  parentEntity : Option Nat
  info : MaterialInfo
deriving DecidableEq, Repr

/-- A point constraint between two handles (`add_point_constraint`). -/
structure PointConstraint where
  a : Nat
  b : Nat
  anchorA : Vec3
  anchorB : Vec3
deriving DecidableEq, Repr

/-- A submitted impulse (`apply_impulse`). -/
structure ImpulseRec where
  handle : Nat
  v : Vec3
  p : Vec3
deriving DecidableEq, Repr

/-- A submitted continuous force (`apply_force`). -/
structure ForceRec where
  handle : Nat
  v : Vec3
deriving DecidableEq, Repr

/-- Whole observable state of `PhysicsSandboxApplication`: scene graph,
entity pool, physics world surface, logs and the application's own
members (`camera_handle`, `apply_anti_gravity`, `gltf_mesh_physics_index`). -/
structure AppState where
  nodes : List Node
  rootNode : Option Nat
  nextNodeId : Nat
  entities : List Entity
  nextEntityId : Nat
  bodies : List PhysBody
  nextBodyId : Nat
  constraints : List PointConstraint
  impulseLog : List ImpulseRec
  forceLog : List ForceRec
  iterateLog : List ℚ
  cameraHandle : Option Nat
  applyAntiGravity : Bool
  gltfMeshPhysicsIndex : Nat
  registeredMeshes : Nat
  cameraPosition : Vec3
deriving DecidableEq, Repr

/-- `Scene::create_node()`: fresh node with identity transform. -/
def create_node (st : AppState) : Nat × AppState :=
  (st.nextNodeId,
   { st with
     nodes := st.nodes ++
       [{ id := st.nextNodeId, translation := ⟨0, 0, 0⟩, scale := ⟨1, 1, 1⟩,
          parent := none, children := [], cachedValid := true }],
     nextNodeId := st.nextNodeId + 1 })

/-- `node->transform.translation = v`. -/
def setNodeTranslation (st : AppState) (n : Nat) (v : Vec3) : AppState :=
  { st with nodes := st.nodes.map (fun nd =>
      if nd.id == n then { nd with translation := v } else nd) }

/-- `node->transform.scale = v`. -/
def setNodeScale (st : AppState) (n : Nat) (v : Vec3) : AppState :=
  { st with nodes := st.nodes.map (fun nd =>
      if nd.id == n then { nd with scale := v } else nd) }

/-- `node->invalidate_cached_transform()`. -/
def invalidateCachedTransform (st : AppState) (n : Nat) : AppState :=
  { st with nodes := st.nodes.map (fun nd =>
      if nd.id == n then { nd with cachedValid := false } else nd) }

/-- `parentNode->add_child(childNode)`. -/
def add_child (st : AppState) (p c : Nat) : AppState :=
  { st with nodes := st.nodes.map (fun nd =>
      if nd.id == p then { nd with children := nd.children ++ [c] }
      else if nd.id == c then { nd with parent := some p }
      else nd) }

/-- `scene.get_root_node()->add_child(childNode)` (a constructed
application always has a root node). -/
def addChildToRoot (st : AppState) (c : Nat) : AppState :=
  match st.rootNode with
  | some r => add_child st r c
  | none => st

/-- `scene.create_renderable(mesh, node)`: new entity with a renderable
component on `n`. -/
def create_renderable (st : AppState) (m : MeshKind) (n : Nat) : Nat × AppState :=
  (st.nextEntityId,
   { st with
     entities := st.entities ++
       [{ id := st.nextEntityId, node := some n, physHandle := none,
          mesh := some m, collisionMesh := false }],
     nextEntityId := st.nextEntityId + 1 })

/-- `scene.create_entity()`: new bare entity. -/
def create_entity (st : AppState) : Nat × AppState :=
  (st.nextEntityId,
   { st with
     entities := st.entities ++
       [{ id := st.nextEntityId, node := none, physHandle := none,
          mesh := none, collisionMesh := false }],
     nextEntityId := st.nextEntityId + 1 })

/-- `entity->allocate_component<PhysicsComponent>()->handle = h`. -/
def setEntityHandle (st : AppState) (e h : Nat) : AppState :=
  { st with entities := st.entities.map (fun x =>
      if x.id == e then { x with physHandle := some h } else x) }

/-- `entity->allocate_component<CollisionMeshComponent>()`. -/
def setEntityCollisionMesh (st : AppState) (e : Nat) : AppState :=
  { st with entities := st.entities.map (fun x =>
      if x.id == e then { x with collisionMesh := true } else x) }

/-- `scene.destroy_entity(entity)`. -/
def destroyEntity (st : AppState) (e : Nat) : AppState :=
  { st with entities := st.entities.filter (fun x => !(x.id == e)) }

/-- `Scene::Node::remove_node_from_hierarchy(node)`: detach `n` from its
parent (clear its parent link, remove it from every child list). -/
def removeNodeFromHierarchy (st : AppState) (n : Nat) : AppState :=
  { st with nodes := st.nodes.map (fun nd =>
      if nd.id == n then { nd with parent := none }
      else { nd with children := nd.children.filter (fun c => !(c == n)) }) }

/-- `scene.update_cached_transforms()`: recompute (validate) every cached
world transform. -/
def update_cached_transforms (st : AppState) : AppState :=
  { st with nodes := st.nodes.map (fun nd => { nd with cachedValid := true }) }

/-- `Global::physics()->add_cube(node, info)`. -/
def add_cube (st : AppState) (n : Nat) (info : MaterialInfo) : Nat × AppState :=
  (st.nextBodyId,
   { st with
     bodies := st.bodies ++
       [{ id := st.nextBodyId, shape := Shape.cube, node := some n,
          parentEntity := none, info := info }],
     nextBodyId := st.nextBodyId + 1 })

/-- `Global::physics()->add_sphere(node, info)`. -/
def add_sphere (st : AppState) (n : Nat) (info : MaterialInfo) : Nat × AppState :=
  (st.nextBodyId,
   { st with
     bodies := st.bodies ++
       [{ id := st.nextBodyId, shape := Shape.sphere, node := some n,
          parentEntity := none, info := info }],
     nextBodyId := st.nextBodyId + 1 })

/-- `Global::physics()->add_cylinder(node, height, radius, info)`. -/
def add_cylinder (st : AppState) (n : Nat) (height radius : ℚ)
    (info : MaterialInfo) : Nat × AppState :=
  (st.nextBodyId,
   { st with
     bodies := st.bodies ++
       [{ id := st.nextBodyId, shape := Shape.cylinder height radius,
          node := some n, parentEntity := none, info := info }],
     nextBodyId := st.nextBodyId + 1 })

/-- `Global::physics()->add_mesh(node, index, info)`. -/
def add_mesh (st : AppState) (n : Nat) (index : Nat)
    (info : MaterialInfo) : Nat × AppState :=
  (st.nextBodyId,
   { st with
     bodies := st.bodies ++
       [{ id := st.nextBodyId, shape := Shape.meshShape index, node := some n,
          parentEntity := none, info := info }],
     nextBodyId := st.nextBodyId + 1 })

/-- `Global::physics()->add_infinite_plane(plane, info)`: note the call
takes a plane equation, not a scene node; the handle gets no associated
node. -/
def add_infinite_plane (st : AppState) (a b c d : ℚ)
    (info : MaterialInfo) : Nat × AppState :=
  (st.nextBodyId,
   { st with
     bodies := st.bodies ++
       [{ id := st.nextBodyId, shape := Shape.infinitePlane a b c d,
          node := none, parentEntity := none, info := info }],
     nextBodyId := st.nextBodyId + 1 })

/-- `PhysicsSystem::set_handle_parent(handle, entity)`. -/
def set_handle_parent (st : AppState) (h e : Nat) : AppState :=
  { st with bodies := st.bodies.map (fun b =>
      if b.id == h then { b with parentEntity := some e } else b) }

/-- `PhysicsSystem::get_scene_node(handle)` for a handle id. -/
def get_scene_node (st : AppState) (h : Nat) : Option Nat :=
  (st.bodies.find? (fun b => b.id == h)).bind (fun b => b.node)

/-- `PhysicsSystem::get_scene_node` applied to a possibly-null handle
pointer (a null handle has no node). -/
def getSceneNodeOpt (st : AppState) (h : Option Nat) : Option Nat :=
  h.bind (fun hh => get_scene_node st hh)

/-- `Global::physics()->apply_impulse(handle, v, p)`: recorded. -/
def apply_impulse (st : AppState) (h : Nat) (v p : Vec3) : AppState :=
  { st with impulseLog := st.impulseLog ++ [{ handle := h, v := v, p := p }] }

/-- `Global::physics()->apply_force(handle, v)`: recorded. -/
def apply_force (st : AppState) (h : Nat) (v : Vec3) : AppState :=
  { st with forceLog := st.forceLog ++ [{ handle := h, v := v }] }

/-- `Global::physics()->add_point_constraint(a, b, anchorA, anchorB)`. -/
def add_point_constraint (st : AppState) (a b : Nat) (anchorA anchorB : Vec3) :
    AppState :=
  { st with constraints := st.constraints ++
      [{ a := a, b := b, anchorA := anchorA, anchorB := anchorB }] }

/-- `Global::physics()->register_collision_mesh(c)`. -/
def register_collision_mesh (st : AppState) : Nat × AppState :=
  (st.registeredMeshes, { st with registeredMeshes := st.registeredMeshes + 1 })

/-- `Global::physics()->iterate(dt)`: the step itself is external; the
call is recorded. -/
def physicsIterate (st : AppState) (dt : ℚ) : AppState :=
  { st with iterateLog := st.iterateLog ++ [dt] }

/-- Result of `query_closest_hit_ray`: optional entity, optional handle,
hit position.  A miss has `entity = none`. -/
structure QueryResult where
  entity : Option Nat
  handle : Option Nat
  world_pos : Vec3
deriving DecidableEq, Repr

/-- The keyboard keys the sandbox binds. -/
inductive Key where
  | M | Space | R | O | L | K | P | other
deriving DecidableEq, Repr

/-- `KeyState` of a `KeyboardEvent`. -/
inductive KeyState where
  | Pressed | Released | Repeat
deriving DecidableEq, Repr

/-- Recipe used for spawned cubes (keys O and K):
mass 10, restitution 0.05, angular damping 0.3, linear damping 0.3. -/
def cubeInfo : MaterialInfo :=
  { mass := 10, restitution := 0.05, angular_damping := 0.3,
    linear_damping := 0.3 }

/-- Recipe used for the spawned cylinder (key P):
mass 30, restitution 0.2, angular damping 0.3, linear damping 0.3. -/
def cylinderInfo : MaterialInfo :=
  { mass := 30, restitution := 0.2, angular_damping := 0.3,
    linear_damping := 0.3 }

/-- Key Space branch: impulse (0,22,-4) at (0.2,0,0) on every
physics-bound entity whose handle has a scene node. -/
def spaceBranch (st : AppState) : AppState :=
  (st.entities.filterMap (fun e => e.physHandle)).foldl
    (fun s h =>
      if (get_scene_node s h).isSome then
        apply_impulse s h ⟨0, 22, -4⟩ ⟨0.2, 0, 0⟩
      else s)
    st

/-- Key R branch: on a hit whose handle has a scene node, detach the node
if it has no children, then destroy the entity. -/
def rBranch (ray : QueryResult) (st : AppState) : AppState :=
  match ray.entity with
  | none => st
  | some ent =>
    match getSceneNodeOpt st ray.handle with
    | none => st
    | some n =>
      match st.nodes.find? (fun nd => nd.id == n) with
      | some nd =>
        let st1 := if nd.children.isEmpty then removeNodeFromHierarchy st n else st
        destroyEntity st1 ent
      | none => destroyEntity st ent

/-- Key O branch: spawn one physics cube 20 units above the hit point. -/
def oBranch (ray : QueryResult) (st : AppState) : AppState :=
  match ray.entity with
  | none => st
  | some _ =>
    let (nId, st) := create_node st
    let st := setNodeTranslation st nId (ray.world_pos.add ⟨0, 20, 0⟩)
    let st := invalidateCachedTransform st nId
    let st := addChildToRoot st nId
    let (eId, st) := create_renderable st MeshKind.cubeM nId
    let (hId, st) := add_cube st nId cubeInfo
    let st := setEntityHandle st eId hId
    set_handle_parent st hId eId

/-- Key L branch: spawn one physics mesh instance 1 unit above the hit
point, using the registered collision-mesh index. -/
def lBranch (ray : QueryResult) (st : AppState) : AppState :=
  match ray.entity with
  | none => st
  | some _ =>
    let (nId, st) := create_node st
    let st := setNodeTranslation st nId (ray.world_pos.add ⟨0, 1, 0⟩)
    let st := invalidateCachedTransform st nId
    let st := addChildToRoot st nId
    let (eId, st) := create_renderable st MeshKind.gltfM nId
    let (hId, st) := add_mesh st nId st.gltfMeshPhysicsIndex {}
    let st := setEntityHandle st eId hId
    set_handle_parent st hId eId

/-- Key K branch: spawn the two-cube hinge rig (left cube + arm child,
right cube + arm child, one point constraint). -/
def kBranch (ray : QueryResult) (st : AppState) : AppState :=
  match ray.entity with
  | none => st
  | some _ =>
    let (nL, st) := create_node st
    let st := setNodeTranslation st nL (ray.world_pos.add ⟨0, 20, 0⟩)
    let st := invalidateCachedTransform st nL
    let st := addChildToRoot st nL
    let (eL, st) := create_renderable st MeshKind.cubeM nL
    let (hL, st) := add_cube st nL cubeInfo
    let st := setEntityHandle st eL hL
    let st := set_handle_parent st hL eL
    let (nLH, st) := create_node st
    let st := add_child st nL nLH
    let st := setNodeScale st nLH ⟨0.75, 0.1, 0.1⟩
    let st := setNodeTranslation st nLH ⟨1.75, 0, 0⟩
    let (_, st) := create_renderable st MeshKind.cubeM nLH
    let (nR, st) := create_node st
    let st := setNodeTranslation st nR (ray.world_pos.add ⟨5, 20, 0⟩)
    let st := invalidateCachedTransform st nR
    let st := addChildToRoot st nR
    let (eR, st) := create_renderable st MeshKind.cubeM nR
    let (hR, st) := add_cube st nR cubeInfo
    let st := setEntityHandle st eR hR
    let st := set_handle_parent st hR eR
    let (nRH, st) := create_node st
    let st := add_child st nR nRH
    let st := setNodeScale st nRH ⟨0.75, 0.1, 0.1⟩
    let st := setNodeTranslation st nRH ⟨-1.75, 0, 0⟩
    let (_, st) := create_renderable st MeshKind.cubeM nRH
    add_point_constraint st hL hR ⟨2.5, 0, 0⟩ ⟨-2.5, 0, 0⟩

/-- Key P branch: spawn one physics cylinder 20 units above the hit point
(the source's local variables are named `sphere_node`/`sphere` but the
shape is a cylinder and the renderable the cylinder mesh). -/
def pBranch (ray : QueryResult) (st : AppState) : AppState :=
  match ray.entity with
  | none => st
  | some _ =>
    let (nId, st) := create_node st
    let st := setNodeTranslation st nId (ray.world_pos.add ⟨0, 20, 0⟩)
    let st := invalidateCachedTransform st nId
    let st := addChildToRoot st nId
    let (eId, st) := create_renderable st MeshKind.cylinderM nId
    let (hId, st) := add_cylinder st nId 1 0.5 cylinderInfo
    let st := setEntityHandle st eId hId
    set_handle_parent st hId eId

/-- `PhysicsSandboxApplication::on_key`.  The M check is an independent
`if`; the Space/R/O/L/K/P chain is `if`/`else if`.  `ray` is the result
the branch's `query_closest_hit_ray` call would return. -/
def on_key (key : Key) (ks : KeyState) (ray : QueryResult) (st : AppState) :
    AppState :=
  let st :=
    if key = Key.M then
      { st with applyAntiGravity :=
          match ks with
          | KeyState.Released => false
          | _ => true }
    else st
  if key = Key.Space ∧ ks = KeyState.Pressed then spaceBranch st
  else if key = Key.R ∧ ks = KeyState.Pressed then rBranch ray st
  else if key = Key.O ∧ ks = KeyState.Pressed then oBranch ray st
  else if key = Key.L ∧ ks = KeyState.Pressed then lBranch ray st
  else if key = Key.K ∧ ks = KeyState.Pressed then kBranch ray st
  else if key = Key.P ∧ ks = KeyState.Pressed then pBranch ray st
  else st

/-- Traceable per-frame operations of `render_frame`, in submission
order. -/
inductive TraceOp where
  | applyForce (handle : Nat) (v : Vec3)
  | writeCameraNode (node : Nat)
  | iterate (dt : ℚ)
  | updateCachedTransforms
deriving DecidableEq, Repr

/-- The anti-gravity force vector (0,300,0). -/
def antiGravityForce : Vec3 := ⟨0, 300, 0⟩

/-- Handles of all physics-bound entities, in entity-pool order
(`get_component_group<PhysicsComponent>()`). -/
def physGroupHandles (st : AppState) : List Nat :=
  st.entities.filterMap (fun e => e.physHandle)

/-- `PhysicsSandboxApplication::render_frame` (the simulation part; pure
drawing is outside the model).  Returns the new state and the trace of
per-frame operations in execution order. -/
def render_frame (dt : ℚ) (st : AppState) : AppState × List TraceOp :=
  let forceOps : List TraceOp :=
    if st.applyAntiGravity then
      (physGroupHandles st).map (fun h => TraceOp.applyForce h antiGravityForce)
    else []
  let st1 :=
    if st.applyAntiGravity then
      (physGroupHandles st).foldl (fun s h => apply_force s h antiGravityForce) st
    else st
  let (st2, camOps) :=
    match getSceneNodeOpt st1 st1.cameraHandle with
    | some n =>
      (setNodeTranslation st1 n st1.cameraPosition, [TraceOp.writeCameraNode n])
    | none => (st1, ([] : List TraceOp))
  let st3 := physicsIterate st2 dt
  let st4 := update_cached_transforms st3
  (st4, forceOps ++ camOps ++ [TraceOp.iterate dt, TraceOp.updateCachedTransforms])

/-- State at entry of the `PhysicsSandboxApplication` constructor (empty
scene; camera placed at (0,2,8)). -/
def initialState : AppState :=
  { nodes := [], rootNode := none, nextNodeId := 0,
    entities := [], nextEntityId := 0,
    bodies := [], nextBodyId := 0,
    constraints := [], impulseLog := [], forceLog := [], iterateLog := [],
    cameraHandle := none, applyAntiGravity := false,
    gltfMeshPhysicsIndex := 0, registeredMeshes := 0,
    cameraPosition := ⟨0, 2, 8⟩ }

/-- `PhysicsSandboxApplication::init_scene`.  `extractOk` is the result of
the external `SceneFormats::extract_collision_mesh` call. -/
def init_scene (extractOk : Bool) (st : AppState) : AppState :=
  let (rootId, st) := create_node st
  let (planeEnt, st) := create_renderable st MeshKind.planeM rootId
  let (planeH, st) := add_infinite_plane st 0 1 0 0 {}
  let st := setEntityHandle st planeEnt planeH
  let st := set_handle_parent st planeH planeEnt
  let st := { st with rootNode := some rootId }
  let (modelEnt, st) := create_entity st
  let st := setEntityCollisionMesh st modelEnt
  let st :=
    if extractOk then
      let (idx, st) := register_collision_mesh st
      { st with gltfMeshPhysicsIndex := idx }
    else st
  let (camNode, st) := create_node st
  let st := add_child st rootId camNode
  let (camEnt, st) := create_entity st
  let (camH, st) := add_sphere st camNode { objectType := ObjType.Kinematic }
  let st := setEntityHandle st camEnt camH
  { st with cameraHandle := some camH }

/-- The fully constructed application state (constructor body:
`init_plane` builds only a renderable handle; `init_scene` builds the
scene). -/
def constructApp (extractOk : Bool) : AppState :=
  init_scene extractOk initialState

/-- `Granite::application_create(argc, argv)`: fewer than two arguments
refuse to start; a constructor exception (external: GLTF parsing or
device setup) is caught and also yields null. -/
def application_create (args : List String) (ctorThrows : Bool)
    (extractOk : Bool) : Option AppState :=
  if args.length < 2 then none
  else if ctorThrows then none
  else some (constructApp extractOk)

/-- Look up a scene node by id. -/
def nodeFind (st : AppState) (m : Nat) : Option Node :=
  st.nodes.find? (fun nd => nd.id == m)

/-- Look up an entity by id in the entity pool. -/
def entityFind (st : AppState) (m : Nat) : Option Entity :=
  st.entities.find? (fun e => e.id == m)

/-- Look up a physics body by handle id. -/
def bodyFind (st : AppState) (m : Nat) : Option PhysBody :=
  st.bodies.find? (fun b => b.id == m)

/-- Well-formedness: all allocated ids are below the allocators' next
free id (holds for every state the application can reach). -/
def WF (st : AppState) : Prop :=
  (∀ nd ∈ st.nodes, nd.id < st.nextNodeId) ∧
  (∀ e ∈ st.entities, e.id < st.nextEntityId) ∧
  (∀ b ∈ st.bodies, b.id < st.nextBodyId)

instance (st : AppState) : Decidable (WF st) := by
  unfold WF; infer_instance

/-- The association invariant of the spec, restricted as the code
realises it: every handle that has an associated scene node also has an
owning entity registered as its parent — except the camera's kinematic
proxy handle, which the code never registers. -/
def handleParentInvariantExceptCamera (st : AppState) : Prop :=
  ∀ b ∈ st.bodies, b.node.isSome → b.parentEntity.isSome ∨ some b.id = st.cameraHandle

instance (st : AppState) : Decidable (handleParentInvariantExceptCamera st) := by
  unfold handleParentInvariantExceptCamera; infer_instance

/-- The spec's association invariant, handle→entity direction, as
written: every handle associated with a node has an owning entity. -/
def handleParentInvariant (st : AppState) : Prop :=
  ∀ b ∈ st.bodies, b.node.isSome → b.parentEntity.isSome

instance (st : AppState) : Decidable (handleParentInvariant st) := by
  unfold handleParentInvariant; infer_instance

/-- A ray-query miss. -/
def rayMiss : QueryResult := { entity := none, handle := none, world_pos := ⟨0, 0, 0⟩ }

/-- A sample ray hit on the ground plane of the constructed scene
(entity 0 owns handle 0, the infinite-plane body). -/
def hitGround : QueryResult := { entity := some 0, handle := some 0, world_pos := ⟨1, 0, -3⟩ }

/-! ## Machinery lemmas -/

theorem beq_add_pos_right (n k : Nat) : (n == n + (k + 1)) = false := by
  rw [beq_eq_false_iff_ne]; omega

theorem beq_add_pos_left (n k : Nat) : (n + (k + 1) == n) = false := by
  rw [beq_eq_false_iff_ne]; omega

theorem add_beq_add (n a b : Nat) : (n + a == n + b) = (a == b) := by
  cases hab : (a == b) with
  | true =>
    have h : a = b := by
      have := hab
      simp only [beq_iff_eq] at this
      exact this
    subst h
    exact beq_self_eq_true (n + a)
  | false =>
    have h : a ≠ b := by
      have := hab
      rw [beq_eq_false_iff_ne] at this
      exact this
    rw [beq_eq_false_iff_ne]
    omega

theorem find?_append_left_none {α : Type} (p : α → Bool) (l l2 : List α)
    (h : l.find? p = none) : (l ++ l2).find? p = l2.find? p := by
  rw [List.find?_append, h, Option.none_or]

theorem find?_map_idpres {α : Type} (p : α → Bool) (g : α → α) (l : List α)
    (hg : ∀ a, p (g a) = p a) : (l.map g).find? p = (l.find? p).map g := by
  rw [List.find?_map]
  have h : p ∘ g = p := funext hg
  rw [h]

theorem nodeFind_none_of_ge (st : AppState) (m : Nat)
    (h : ∀ nd ∈ st.nodes, nd.id < st.nextNodeId) (hm : st.nextNodeId ≤ m) :
    st.nodes.find? (fun nd => nd.id == m) = none := by
  rw [List.find?_eq_none]
  intro x hx
  have := h x hx
  simp only [Nat.beq_eq_true_eq]
  omega

theorem entityFind_none_of_ge (st : AppState) (m : Nat)
    (h : ∀ e ∈ st.entities, e.id < st.nextEntityId) (hm : st.nextEntityId ≤ m) :
    st.entities.find? (fun e => e.id == m) = none := by
  rw [List.find?_eq_none]
  intro x hx
  have := h x hx
  simp only [Nat.beq_eq_true_eq]
  omega

theorem bodyFind_none_of_ge (st : AppState) (m : Nat)
    (h : ∀ b ∈ st.bodies, b.id < st.nextBodyId) (hm : st.nextBodyId ≤ m) :
    st.bodies.find? (fun b => b.id == m) = none := by
  rw [List.find?_eq_none]
  intro x hx
  have := h x hx
  simp only [Nat.beq_eq_true_eq]
  omega

theorem foldl_apply_force (hs : List Nat) (v : Vec3) (st : AppState) :
    hs.foldl (fun s h => apply_force s h v) st =
    { st with forceLog := st.forceLog ++ hs.map (fun h => { handle := h, v := v }) } := by
  induction hs generalizing st with
  | nil => simp
  | cons h t ih =>
    simp only [List.foldl_cons, List.map_cons]
    rw [ih]
    simp [apply_force]

theorem forceLog_setNodeTranslation (st : AppState) (n : Nat) (v : Vec3) :
    (setNodeTranslation st n v).forceLog = st.forceLog := rfl

theorem forceLog_physicsIterate (st : AppState) (dt : ℚ) :
    (physicsIterate st dt).forceLog = st.forceLog := rfl

theorem forceLog_update_cached (st : AppState) :
    (update_cached_transforms st).forceLog = st.forceLog := rfl

/-- C5: while the anti-gravity flag is active, each rendered frame submits
force (0,300,0) for every physics-bound entity (in pool order); while it
is inactive, the frame submits no force. -/
theorem anti_gravity_force_each_tick (dt : ℚ) (st : AppState) :
    (render_frame dt st).1.forceLog =
      st.forceLog ++
        (if st.applyAntiGravity then
          (physGroupHandles st).map (fun h => { handle := h, v := antiGravityForce })
         else []) := by
  simp only [render_frame]
  split <;> split <;>
    simp_all [foldl_apply_force, setNodeTranslation, physicsIterate,
      update_cached_transforms]

/-- C4: every rendered frame runs, in order: anti-gravity forces (when the
flag is active), the camera-position write into the camera body's node,
exactly one physics `iterate dt`, then the recompute of cached world
transforms. -/
theorem frame_step_order (dt : ℚ) (st : AppState) :
    (render_frame dt st).2 =
      (if st.applyAntiGravity then
        (physGroupHandles st).map (fun h => TraceOp.applyForce h antiGravityForce)
       else []) ++
      (match getSceneNodeOpt st st.cameraHandle with
       | some n => [TraceOp.writeCameraNode n]
       | none => []) ++
      [TraceOp.iterate dt, TraceOp.updateCachedTransforms] ∧
    (render_frame dt st).1.iterateLog = st.iterateLog ++ [dt] := by
  constructor
  · simp only [render_frame]
    cases hag : st.applyAntiGravity <;>
      simp_all [foldl_apply_force, getSceneNodeOpt, get_scene_node] <;>
      (split <;> simp_all)
  · simp only [render_frame]
    cases hag : st.applyAntiGravity <;>
      split <;>
        simp_all [foldl_apply_force, setNodeTranslation, physicsIterate,
          update_cached_transforms]

/-- C6 (amended): the M key does not toggle; it mirrors the key state:
the anti-gravity flag becomes active on press or repeat and inactive on
release, and nothing else in the state changes. -/
theorem anti_gravity_key_follows_key_state (ks : KeyState) (ray : QueryResult)
    (st : AppState) :
    on_key Key.M ks ray st =
      { st with applyAntiGravity :=
          match ks with
          | KeyState.Released => false
          | _ => true } := by
  cases ks <;> simp [on_key]

/-- C6 counterexample: pressing M while the flag is already active leaves
it active (no flip), and releasing M deactivates it — the force does not
remain active after the key is released. -/
theorem anti_gravity_key_not_toggle :
    (on_key Key.M KeyState.Pressed rayMiss (constructApp true)).applyAntiGravity = true ∧
    (on_key Key.M KeyState.Pressed rayMiss
      (on_key Key.M KeyState.Pressed rayMiss (constructApp true))).applyAntiGravity = true ∧
    (on_key Key.M KeyState.Released rayMiss
      (on_key Key.M KeyState.Pressed rayMiss (constructApp true))).applyAntiGravity = false :=
  ⟨rfl, rfl, rfl⟩

/-- C2: a spawn action (cube, mesh instance, hinge rig, cylinder) whose
ray query misses performs no mutation at all: the state is unchanged. -/
theorem spawn_ray_miss_noop (k : Key) (ks : KeyState) (ray : QueryResult)
    (st : AppState)
    (hk : k = Key.O ∨ k = Key.L ∨ k = Key.K ∨ k = Key.P)
    (hmiss : ray.entity = none) :
    on_key k ks ray st = st := by
  rcases hk with rfl | rfl | rfl | rfl <;> cases ks <;>
    simp [on_key, oBranch, lBranch, kBranch, pBranch, hmiss]

/-- C2 witness: a concrete miss on the constructed scene for the cube
spawn key. -/
theorem spawn_ray_miss_noop_witness :
    (Key.O = Key.O ∨ Key.O = Key.L ∨ Key.O = Key.K ∨ Key.O = Key.P) ∧
    rayMiss.entity = none ∧
    on_key Key.O KeyState.Pressed rayMiss (constructApp true) = constructApp true :=
  ⟨Or.inl rfl, rfl,
   spawn_ray_miss_noop Key.O KeyState.Pressed rayMiss (constructApp true)
     (Or.inl rfl) rfl⟩

/-- C10: a removal whose ray query hits a body whose handle has no
associated scene node (such as the ground plane) performs no mutation:
the entity survives and the state is unchanged. -/
theorem removal_hit_without_node_noop (ray : QueryResult) (st : AppState)
    (ent : Nat) (hhit : ray.entity = some ent)
    (hnode : getSceneNodeOpt st ray.handle = none) :
    on_key Key.R KeyState.Pressed ray st = st := by
  simp [on_key, rBranch, hhit, hnode]

/-- C10 witness: hitting the ground plane (handle without node) of the
constructed scene with the removal key changes nothing. -/
theorem removal_hit_without_node_noop_witness :
    hitGround.entity = some 0 ∧
    getSceneNodeOpt (constructApp true) hitGround.handle = none ∧
    on_key Key.R KeyState.Pressed hitGround (constructApp true) = constructApp true :=
  ⟨rfl, rfl,
   removal_hit_without_node_noop hitGround (constructApp true) 0 rfl rfl⟩

/-- C9: `application_create` returns null for fewer than two arguments and
when construction throws; with a valid argument vector and a successful
construction it returns the constructed application. -/
theorem application_create_argument_check :
    (∀ (args : List String) (t ok : Bool),
      args.length < 2 → application_create args t ok = none) ∧
    (∀ (args : List String) (ok : Bool), application_create args true ok = none) ∧
    application_create (List.replicate 2 default) false true = some (constructApp true) := by
  refine ⟨?_, ?_, rfl⟩
  · intro args t ok h
    simp [application_create, h]
  · intro args ok
    by_cases h : args.length < 2 <;> simp [application_create, h]

/-- C9 witness: the failure cases at concrete inputs. -/
theorem application_create_argument_check_witness :
    application_create [] false true = none ∧
    application_create (List.replicate 2 default) true true = none :=
  ⟨application_create_argument_check.1 [] false true (by decide),
   application_create_argument_check.2.1 (List.replicate 2 default) true⟩

theorem find?_id_map_none {α : Type} (idOf : α → Nat) (l : List α) (g : α → α)
    (hg : ∀ x, idOf (g x) = idOf x) (bound m : Nat)
    (hb : ∀ x ∈ l, idOf x < bound) (hm : bound ≤ m) :
    (l.map g).find? (fun x => idOf x == m) = none := by
  rw [List.find?_eq_none]
  intro x hx
  obtain ⟨y, hy, rfl⟩ := List.mem_map.1 hx
  have hlt := hb y hy
  simp only [hg, Nat.beq_eq_true_eq]
  omega

theorem id_if_node_translation (nd : Node) (k : Nat) (v : Vec3) :
    (if (nd.id == k) = true then { nd with translation := v } else nd).id = nd.id := by
  split <;> rfl

theorem id_if_node_scale (nd : Node) (k : Nat) (v : Vec3) :
    (if (nd.id == k) = true then { nd with scale := v } else nd).id = nd.id := by
  split <;> rfl

theorem id_if_node_invalidate (nd : Node) (k : Nat) :
    (if (nd.id == k) = true then { nd with cachedValid := false } else nd).id = nd.id := by
  split <;> rfl

theorem id_if_node_addchild (nd : Node) (p c : Nat) :
    (if (nd.id == p) = true then { nd with children := nd.children ++ [c] }
     else if (nd.id == c) = true then { nd with parent := some p }
     else nd).id = nd.id := by
  split
  · rfl
  · split <;> rfl

theorem map_ids_peel {α : Type} (idOf : α → Nat) (g : α → α) (l : List α)
    (hg : ∀ x, idOf (g x) = idOf x) :
    (l.map g).map idOf = l.map idOf := by
  rw [List.map_map]
  apply List.map_congr_left
  intro a _
  exact hg a

theorem map_ids_node_translation (l : List Node) (k : Nat) (v : Vec3) :
    (l.map (fun nd => if (nd.id == k) = true then { nd with translation := v } else nd)).map Node.id
      = l.map Node.id :=
  map_ids_peel Node.id _ l (fun x => id_if_node_translation x k v)

theorem map_ids_node_scale (l : List Node) (k : Nat) (v : Vec3) :
    (l.map (fun nd => if (nd.id == k) = true then { nd with scale := v } else nd)).map Node.id
      = l.map Node.id :=
  map_ids_peel Node.id _ l (fun x => id_if_node_scale x k v)

theorem map_ids_node_invalidate (l : List Node) (k : Nat) :
    (l.map (fun nd => if (nd.id == k) = true then { nd with cachedValid := false } else nd)).map Node.id
      = l.map Node.id :=
  map_ids_peel Node.id _ l (fun x => id_if_node_invalidate x k)

theorem map_ids_node_addchild (l : List Node) (p c : Nat) :
    (l.map (fun nd =>
      if (nd.id == p) = true then { nd with children := nd.children ++ [c] }
      else if (nd.id == c) = true then { nd with parent := some p }
      else nd)).map Node.id = l.map Node.id :=
  map_ids_peel Node.id _ l (fun x => id_if_node_addchild x p c)

theorem find?_none_of_ids {α : Type} (idOf : α → Nat) (l l2 : List α) (m : Nat)
    (hids : l2.map idOf = l.map idOf)
    (h : l.find? (fun x => idOf x == m) = none) :
    l2.find? (fun x => idOf x == m) = none := by
  rw [List.find?_eq_none] at h ⊢
  intro x hx hpx
  have hmem : idOf x ∈ l.map idOf := by
    rw [← hids]
    exact List.mem_map_of_mem idOf hx
  obtain ⟨y, hy, hyx⟩ := List.mem_map.1 hmem
  apply h y hy
  rw [hyx]
  exact hpx

theorem id_if_entity_handle (x : Entity) (k h : Nat) :
    (if (x.id == k) = true then { x with physHandle := some h } else x).id = x.id := by
  split <;> rfl

theorem id_if_body_parent (b : PhysBody) (k e : Nat) :
    (if (b.id == k) = true then { b with parentEntity := some e } else b).id = b.id := by
  split <;> rfl

theorem map_ids_entity_handle (l : List Entity) (k h : Nat) :
    (l.map (fun x => if (x.id == k) = true then { x with physHandle := some h } else x)).map Entity.id
      = l.map Entity.id :=
  map_ids_peel Entity.id _ l (fun x => id_if_entity_handle x k h)

theorem map_ids_body_parent (l : List PhysBody) (k e : Nat) :
    (l.map (fun b => if (b.id == k) = true then { b with parentEntity := some e } else b)).map PhysBody.id
      = l.map PhysBody.id :=
  map_ids_peel PhysBody.id _ l (fun x => id_if_body_parent x k e)

set_option maxHeartbeats 2000000 in
/-- Net effect of the hinge-rig branch (key K) on a hit: the two cube
bodies, four entities (two physics-bound, two arm renderables), four
nodes, and the single point constraint. -/
theorem kBranch_effect (st : AppState) (ray : QueryResult) (ent r : Nat)
    (he : ray.entity = some ent) (hroot : st.rootNode = some r)
    (hr : r < st.nextNodeId) (hwf : WF st) :
    (kBranch ray st).nextNodeId = st.nextNodeId + 4 ∧
    (kBranch ray st).nextEntityId = st.nextEntityId + 4 ∧
    (kBranch ray st).nextBodyId = st.nextBodyId + 2 ∧
    bodyFind (kBranch ray st) st.nextBodyId =
      some { id := st.nextBodyId, shape := Shape.cube, node := some st.nextNodeId,
             parentEntity := some st.nextEntityId, info := cubeInfo } ∧
    bodyFind (kBranch ray st) (st.nextBodyId + 1) =
      some { id := st.nextBodyId + 1, shape := Shape.cube,
             node := some (st.nextNodeId + 2),
             parentEntity := some (st.nextEntityId + 2), info := cubeInfo } ∧
    get_scene_node (kBranch ray st) st.nextBodyId = some st.nextNodeId ∧
    get_scene_node (kBranch ray st) (st.nextBodyId + 1) = some (st.nextNodeId + 2) ∧
    entityFind (kBranch ray st) st.nextEntityId =
      some { id := st.nextEntityId, node := some st.nextNodeId,
             physHandle := some st.nextBodyId, mesh := some MeshKind.cubeM,
             collisionMesh := false } ∧
    entityFind (kBranch ray st) (st.nextEntityId + 1) =
      some { id := st.nextEntityId + 1, node := some (st.nextNodeId + 1),
             physHandle := none, mesh := some MeshKind.cubeM,
             collisionMesh := false } ∧
    entityFind (kBranch ray st) (st.nextEntityId + 2) =
      some { id := st.nextEntityId + 2, node := some (st.nextNodeId + 2),
             physHandle := some (st.nextBodyId + 1), mesh := some MeshKind.cubeM,
             collisionMesh := false } ∧
    entityFind (kBranch ray st) (st.nextEntityId + 3) =
      some { id := st.nextEntityId + 3, node := some (st.nextNodeId + 3),
             physHandle := none, mesh := some MeshKind.cubeM,
             collisionMesh := false } ∧
    nodeFind (kBranch ray st) st.nextNodeId =
      some { id := st.nextNodeId, translation := ray.world_pos.add ⟨0, 20, 0⟩,
             scale := ⟨1, 1, 1⟩, parent := some r,
             children := [st.nextNodeId + 1], cachedValid := false } ∧
    nodeFind (kBranch ray st) (st.nextNodeId + 1) =
      some { id := st.nextNodeId + 1, translation := ⟨1.75, 0, 0⟩,
             scale := ⟨0.75, 0.1, 0.1⟩, parent := some st.nextNodeId,
             children := [], cachedValid := true } ∧
    nodeFind (kBranch ray st) (st.nextNodeId + 2) =
      some { id := st.nextNodeId + 2, translation := ray.world_pos.add ⟨5, 20, 0⟩,
             scale := ⟨1, 1, 1⟩, parent := some r,
             children := [st.nextNodeId + 3], cachedValid := false } ∧
    nodeFind (kBranch ray st) (st.nextNodeId + 3) =
      some { id := st.nextNodeId + 3, translation := ⟨-1.75, 0, 0⟩,
             scale := ⟨0.75, 0.1, 0.1⟩, parent := some (st.nextNodeId + 2),
             children := [], cachedValid := true } ∧
    (kBranch ray st).constraints = st.constraints ++
      [{ a := st.nextBodyId, b := st.nextBodyId + 1,
         anchorA := ⟨2.5, 0, 0⟩, anchorB := ⟨-2.5, 0, 0⟩ }] := by
  obtain ⟨hn, hent, hb⟩ := hwf
  have n01 : (st.nextNodeId == st.nextNodeId + 1) = false := by rw [beq_eq_false_iff_ne]; omega
  have n02 : (st.nextNodeId == st.nextNodeId + 1 + 1) = false := by rw [beq_eq_false_iff_ne]; omega
  have n03 : (st.nextNodeId == st.nextNodeId + 1 + 1 + 1) = false := by rw [beq_eq_false_iff_ne]; omega
  have n10 : (st.nextNodeId + 1 == st.nextNodeId) = false := by rw [beq_eq_false_iff_ne]; omega
  have n12 : (st.nextNodeId + 1 == st.nextNodeId + 1 + 1) = false := by rw [beq_eq_false_iff_ne]; omega
  have n13 : (st.nextNodeId + 1 == st.nextNodeId + 1 + 1 + 1) = false := by rw [beq_eq_false_iff_ne]; omega
  have n20 : (st.nextNodeId + 1 + 1 == st.nextNodeId) = false := by rw [beq_eq_false_iff_ne]; omega
  have n23 : (st.nextNodeId + 1 + 1 == st.nextNodeId + 1 + 1 + 1) = false := by rw [beq_eq_false_iff_ne]; omega
  have n30 : (st.nextNodeId + 1 + 1 + 1 == st.nextNodeId) = false := by rw [beq_eq_false_iff_ne]; omega
  have n32 : (st.nextNodeId + 1 + 1 + 1 == st.nextNodeId + 1 + 1) = false := by rw [beq_eq_false_iff_ne]; omega
  have nr0 : (st.nextNodeId == r) = false := by rw [beq_eq_false_iff_ne]; omega
  have nr1 : (st.nextNodeId + 1 == r) = false := by rw [beq_eq_false_iff_ne]; omega
  have nr2 : (st.nextNodeId + 1 + 1 == r) = false := by rw [beq_eq_false_iff_ne]; omega
  have m02 : (st.nextNodeId == st.nextNodeId + 2) = false := by rw [beq_eq_false_iff_ne]; omega
  have m12 : (st.nextNodeId + 1 == st.nextNodeId + 2) = false := by rw [beq_eq_false_iff_ne]; omega
  have m22 : (st.nextNodeId + 1 + 1 == st.nextNodeId + 2) = true := by rw [beq_iff_eq]
  have m03 : (st.nextNodeId == st.nextNodeId + 3) = false := by rw [beq_eq_false_iff_ne]; omega
  have m13 : (st.nextNodeId + 1 == st.nextNodeId + 3) = false := by rw [beq_eq_false_iff_ne]; omega
  have m23 : (st.nextNodeId + 1 + 1 == st.nextNodeId + 3) = false := by rw [beq_eq_false_iff_ne]; omega
  have m33 : (st.nextNodeId + 1 + 1 + 1 == st.nextNodeId + 3) = true := by rw [beq_iff_eq]
  have e02c : (st.nextEntityId == st.nextEntityId + 1 + 1) = false := by rw [beq_eq_false_iff_ne]; omega
  have e12c : (st.nextEntityId + 1 == st.nextEntityId + 1 + 1) = false := by rw [beq_eq_false_iff_ne]; omega
  have e01 : (st.nextEntityId == st.nextEntityId + 1) = false := by rw [beq_eq_false_iff_ne]; omega
  have f02 : (st.nextEntityId == st.nextEntityId + 2) = false := by rw [beq_eq_false_iff_ne]; omega
  have f12 : (st.nextEntityId + 1 == st.nextEntityId + 2) = false := by rw [beq_eq_false_iff_ne]; omega
  have f22 : (st.nextEntityId + 1 + 1 == st.nextEntityId + 2) = true := by rw [beq_iff_eq]
  have f03 : (st.nextEntityId == st.nextEntityId + 3) = false := by rw [beq_eq_false_iff_ne]; omega
  have f13 : (st.nextEntityId + 1 == st.nextEntityId + 3) = false := by rw [beq_eq_false_iff_ne]; omega
  have f23 : (st.nextEntityId + 1 + 1 == st.nextEntityId + 3) = false := by rw [beq_eq_false_iff_ne]; omega
  have f33 : (st.nextEntityId + 1 + 1 + 1 == st.nextEntityId + 3) = true := by rw [beq_iff_eq]
  have b01 : (st.nextBodyId == st.nextBodyId + 1) = false := by rw [beq_eq_false_iff_ne]; omega
  have b10 : (st.nextBodyId + 1 == st.nextBodyId) = false := by rw [beq_eq_false_iff_ne]; omega
  have hN0 : st.nodes.find? (fun nd => nd.id == st.nextNodeId) = none :=
    nodeFind_none_of_ge st st.nextNodeId hn (Nat.le_refl _)
  have hN1 : st.nodes.find? (fun nd => nd.id == st.nextNodeId + 1) = none :=
    nodeFind_none_of_ge st (st.nextNodeId + 1) hn (by omega)
  have hN2 : st.nodes.find? (fun nd => nd.id == st.nextNodeId + 2) = none :=
    nodeFind_none_of_ge st (st.nextNodeId + 2) hn (by omega)
  have hN3 : st.nodes.find? (fun nd => nd.id == st.nextNodeId + 3) = none :=
    nodeFind_none_of_ge st (st.nextNodeId + 3) hn (by omega)
  have hE0 : st.entities.find? (fun e => e.id == st.nextEntityId) = none :=
    entityFind_none_of_ge st st.nextEntityId hent (Nat.le_refl _)
  have hE1 : st.entities.find? (fun e => e.id == st.nextEntityId + 1) = none :=
    entityFind_none_of_ge st (st.nextEntityId + 1) hent (by omega)
  have hE2 : st.entities.find? (fun e => e.id == st.nextEntityId + 2) = none :=
    entityFind_none_of_ge st (st.nextEntityId + 2) hent (by omega)
  have hE3 : st.entities.find? (fun e => e.id == st.nextEntityId + 3) = none :=
    entityFind_none_of_ge st (st.nextEntityId + 3) hent (by omega)
  have hB0 : st.bodies.find? (fun b => b.id == st.nextBodyId) = none :=
    bodyFind_none_of_ge st st.nextBodyId hb (Nat.le_refl _)
  have hB1 : st.bodies.find? (fun b => b.id == st.nextBodyId + 1) = none :=
    bodyFind_none_of_ge st (st.nextBodyId + 1) hb (by omega)
  have stepN : ∀ (l2 : List Node) (m : Nat),
      l2.map Node.id = st.nodes.map Node.id →
      st.nodes.find? (fun nd => nd.id == m) = none →
      l2.find? (fun nd => nd.id == m) = none :=
    fun l2 m hids h => find?_none_of_ids Node.id st.nodes l2 m hids h
  have stepE : ∀ (l2 : List Entity) (m : Nat),
      l2.map Entity.id = st.entities.map Entity.id →
      st.entities.find? (fun e => e.id == m) = none →
      l2.find? (fun e => e.id == m) = none :=
    fun l2 m hids h => find?_none_of_ids Entity.id st.entities l2 m hids h
  have stepB : ∀ (l2 : List PhysBody) (m : Nat),
      l2.map PhysBody.id = st.bodies.map PhysBody.id →
      st.bodies.find? (fun b => b.id == m) = none →
      l2.find? (fun b => b.id == m) = none :=
    fun l2 m hids h => find?_none_of_ids PhysBody.id st.bodies l2 m hids h
  simp only [kBranch, he, create_node, setNodeTranslation, setNodeScale,
    invalidateCachedTransform, addChildToRoot, add_child, create_renderable,
    add_cube, setEntityHandle, set_handle_parent, add_point_constraint, hroot,
    nodeFind, entityFind, bodyFind, get_scene_node,
    List.map_append, List.map_cons, List.map_nil,
    List.find?_append, List.find?, beq_self_eq_true,
    n01, n02, n03, n10, n12, n13, n20, n23, n30, n32, nr0, nr1, nr2,
    m02, m12, m22, m03, m13, m23, m33,
    e02c, e12c, e01, f02, f12, f22, f03, f13, f23, f33, b01, b10,
    reduceIte, Bool.false_eq_true, Option.none_or, Option.or_none,
    Option.some_bind, List.nil_append,
    stepN, stepE, stepB, map_ids_node_translation, map_ids_node_scale,
    map_ids_node_invalidate, map_ids_node_addchild, map_ids_entity_handle,
    map_ids_body_parent, hN0, hN1, hN2, hN3, hE0, hE1, hE2, hE3, hB0, hB1,
    and_true, true_and]
  repeat' apply And.intro
  all_goals rfl

/-- Net effect of the single-cube spawn branch (key O) on a hit: handle
resolves to the new node, the new entity stores the handle, the entity is
registered as the handle's parent. -/
theorem oBranch_bind (st : AppState) (ray : QueryResult) (ent r : Nat)
    (he : ray.entity = some ent) (hroot : st.rootNode = some r)
    (hwf : WF st) :
    get_scene_node (oBranch ray st) st.nextBodyId = some st.nextNodeId ∧
    entityFind (oBranch ray st) st.nextEntityId =
      some { id := st.nextEntityId, node := some st.nextNodeId,
             physHandle := some st.nextBodyId, mesh := some MeshKind.cubeM,
             collisionMesh := false } ∧
    bodyFind (oBranch ray st) st.nextBodyId =
      some { id := st.nextBodyId, shape := Shape.cube,
             node := some st.nextNodeId, parentEntity := some st.nextEntityId,
             info := cubeInfo } := by
  obtain ⟨hn, hent, hb⟩ := hwf
  simp only [oBranch, he, create_node, setNodeTranslation, invalidateCachedTransform,
    addChildToRoot, add_child, create_renderable, add_cube, setEntityHandle,
    set_handle_parent, hroot, get_scene_node, entityFind, bodyFind]
  have hgB : ∀ x : PhysBody,
      (if (x.id == st.nextBodyId) = true then
        { x with parentEntity := some st.nextEntityId } else x).id = x.id := by
    intro x; split <;> rfl
  have hgE : ∀ x : Entity,
      (if (x.id == st.nextEntityId) = true then
        { x with physHandle := some st.nextBodyId } else x).id = x.id := by
    intro x; split <;> rfl
  have hBnone := find?_id_map_none PhysBody.id st.bodies
    (fun b => if (b.id == st.nextBodyId) = true then
      { b with parentEntity := some st.nextEntityId } else b)
    hgB st.nextBodyId st.nextBodyId hb (Nat.le_refl _)
  have hEnone := find?_id_map_none Entity.id st.entities
    (fun x => if (x.id == st.nextEntityId) = true then
      { x with physHandle := some st.nextBodyId } else x)
    hgE st.nextEntityId st.nextEntityId hent (Nat.le_refl _)
  simp only [List.map_append, List.map_cons, List.map_nil, List.find?_append,
    hBnone, hEnone, Option.none_or, List.find?, beq_self_eq_true, reduceIte,
    Option.some_bind]
  exact ⟨trivial, trivial, trivial⟩

/-- Net effect of the mesh-instance spawn branch (key L) on a hit. -/
theorem lBranch_bind (st : AppState) (ray : QueryResult) (ent r : Nat)
    (he : ray.entity = some ent) (hroot : st.rootNode = some r)
    (hwf : WF st) :
    get_scene_node (lBranch ray st) st.nextBodyId = some st.nextNodeId ∧
    entityFind (lBranch ray st) st.nextEntityId =
      some { id := st.nextEntityId, node := some st.nextNodeId,
             physHandle := some st.nextBodyId, mesh := some MeshKind.gltfM,
             collisionMesh := false } ∧
    bodyFind (lBranch ray st) st.nextBodyId =
      some { id := st.nextBodyId, shape := Shape.meshShape st.gltfMeshPhysicsIndex,
             node := some st.nextNodeId, parentEntity := some st.nextEntityId,
             info := {} } := by
  obtain ⟨hn, hent, hb⟩ := hwf
  have hgB : ∀ x : PhysBody,
      (if (x.id == st.nextBodyId) = true then
        { x with parentEntity := some st.nextEntityId } else x).id = x.id := by
    intro x; split <;> rfl
  have hgE : ∀ x : Entity,
      (if (x.id == st.nextEntityId) = true then
        { x with physHandle := some st.nextBodyId } else x).id = x.id := by
    intro x; split <;> rfl
  have hBnone := find?_id_map_none PhysBody.id st.bodies
    (fun b => if (b.id == st.nextBodyId) = true then
      { b with parentEntity := some st.nextEntityId } else b)
    hgB st.nextBodyId st.nextBodyId hb (Nat.le_refl _)
  have hEnone := find?_id_map_none Entity.id st.entities
    (fun x => if (x.id == st.nextEntityId) = true then
      { x with physHandle := some st.nextBodyId } else x)
    hgE st.nextEntityId st.nextEntityId hent (Nat.le_refl _)
  simp only [lBranch, he, create_node, setNodeTranslation, invalidateCachedTransform,
    addChildToRoot, add_child, create_renderable, add_mesh, setEntityHandle,
    set_handle_parent, hroot, get_scene_node, entityFind, bodyFind]
  simp only [List.map_append, List.map_cons, List.map_nil, List.find?_append,
    hBnone, hEnone, Option.none_or, List.find?, beq_self_eq_true, reduceIte,
    Option.some_bind]
  exact ⟨trivial, trivial, trivial⟩

/-- Net effect of the cylinder spawn branch (key P) on a hit. -/
theorem pBranch_bind (st : AppState) (ray : QueryResult) (ent r : Nat)
    (he : ray.entity = some ent) (hroot : st.rootNode = some r)
    (hwf : WF st) :
    get_scene_node (pBranch ray st) st.nextBodyId = some st.nextNodeId ∧
    entityFind (pBranch ray st) st.nextEntityId =
      some { id := st.nextEntityId, node := some st.nextNodeId,
             physHandle := some st.nextBodyId, mesh := some MeshKind.cylinderM,
             collisionMesh := false } ∧
    bodyFind (pBranch ray st) st.nextBodyId =
      some { id := st.nextBodyId, shape := Shape.cylinder 1 0.5,
             node := some st.nextNodeId, parentEntity := some st.nextEntityId,
             info := cylinderInfo } := by
  obtain ⟨hn, hent, hb⟩ := hwf
  have hgB : ∀ x : PhysBody,
      (if (x.id == st.nextBodyId) = true then
        { x with parentEntity := some st.nextEntityId } else x).id = x.id := by
    intro x; split <;> rfl
  have hgE : ∀ x : Entity,
      (if (x.id == st.nextEntityId) = true then
        { x with physHandle := some st.nextBodyId } else x).id = x.id := by
    intro x; split <;> rfl
  have hBnone := find?_id_map_none PhysBody.id st.bodies
    (fun b => if (b.id == st.nextBodyId) = true then
      { b with parentEntity := some st.nextEntityId } else b)
    hgB st.nextBodyId st.nextBodyId hb (Nat.le_refl _)
  have hEnone := find?_id_map_none Entity.id st.entities
    (fun x => if (x.id == st.nextEntityId) = true then
      { x with physHandle := some st.nextBodyId } else x)
    hgE st.nextEntityId st.nextEntityId hent (Nat.le_refl _)
  simp only [pBranch, he, create_node, setNodeTranslation, invalidateCachedTransform,
    addChildToRoot, add_child, create_renderable, add_cylinder, setEntityHandle,
    set_handle_parent, hroot, get_scene_node, entityFind, bodyFind]
  simp only [List.map_append, List.map_cons, List.map_nil, List.find?_append,
    hBnone, hEnone, Option.none_or, List.find?, beq_self_eq_true, reduceIte,
    Option.some_bind]
  exact ⟨trivial, trivial, trivial⟩

/-- C3: for every ray hit at world point P, the hinge-rig action (key K)
creates exactly two physics-bound cube entities whose nodes sit at
P+(0,20,0) and P+(5,20,0) (so 5.0 apart horizontally), each node carrying
exactly one non-physics child arm node, and registers exactly one point
constraint between the two bodies with anchors (2.5,0,0) and (−2.5,0,0). -/
theorem hinge_rig_spawn_shape (st : AppState) (ray : QueryResult) (ent r : Nat)
    (he : ray.entity = some ent) (hroot : st.rootNode = some r)
    (hr : r < st.nextNodeId) (hwf : WF st) :
    (on_key Key.K KeyState.Pressed ray st).nextNodeId = st.nextNodeId + 4 ∧
    (on_key Key.K KeyState.Pressed ray st).nextEntityId = st.nextEntityId + 4 ∧
    (on_key Key.K KeyState.Pressed ray st).nextBodyId = st.nextBodyId + 2 ∧
    bodyFind (on_key Key.K KeyState.Pressed ray st) st.nextBodyId =
      some { id := st.nextBodyId, shape := Shape.cube, node := some st.nextNodeId,
             parentEntity := some st.nextEntityId, info := cubeInfo } ∧
    bodyFind (on_key Key.K KeyState.Pressed ray st) (st.nextBodyId + 1) =
      some { id := st.nextBodyId + 1, shape := Shape.cube,
             node := some (st.nextNodeId + 2),
             parentEntity := some (st.nextEntityId + 2), info := cubeInfo } ∧
    get_scene_node (on_key Key.K KeyState.Pressed ray st) st.nextBodyId =
      some st.nextNodeId ∧
    get_scene_node (on_key Key.K KeyState.Pressed ray st) (st.nextBodyId + 1) =
      some (st.nextNodeId + 2) ∧
    entityFind (on_key Key.K KeyState.Pressed ray st) st.nextEntityId =
      some { id := st.nextEntityId, node := some st.nextNodeId,
             physHandle := some st.nextBodyId, mesh := some MeshKind.cubeM,
             collisionMesh := false } ∧
    entityFind (on_key Key.K KeyState.Pressed ray st) (st.nextEntityId + 1) =
      some { id := st.nextEntityId + 1, node := some (st.nextNodeId + 1),
             physHandle := none, mesh := some MeshKind.cubeM,
             collisionMesh := false } ∧
    entityFind (on_key Key.K KeyState.Pressed ray st) (st.nextEntityId + 2) =
      some { id := st.nextEntityId + 2, node := some (st.nextNodeId + 2),
             physHandle := some (st.nextBodyId + 1), mesh := some MeshKind.cubeM,
             collisionMesh := false } ∧
    entityFind (on_key Key.K KeyState.Pressed ray st) (st.nextEntityId + 3) =
      some { id := st.nextEntityId + 3, node := some (st.nextNodeId + 3),
             physHandle := none, mesh := some MeshKind.cubeM,
             collisionMesh := false } ∧
    nodeFind (on_key Key.K KeyState.Pressed ray st) st.nextNodeId =
      some { id := st.nextNodeId, translation := ray.world_pos.add ⟨0, 20, 0⟩,
             scale := ⟨1, 1, 1⟩, parent := some r,
             children := [st.nextNodeId + 1], cachedValid := false } ∧
    nodeFind (on_key Key.K KeyState.Pressed ray st) (st.nextNodeId + 1) =
      some { id := st.nextNodeId + 1, translation := ⟨1.75, 0, 0⟩,
             scale := ⟨0.75, 0.1, 0.1⟩, parent := some st.nextNodeId,
             children := [], cachedValid := true } ∧
    nodeFind (on_key Key.K KeyState.Pressed ray st) (st.nextNodeId + 2) =
      some { id := st.nextNodeId + 2, translation := ray.world_pos.add ⟨5, 20, 0⟩,
             scale := ⟨1, 1, 1⟩, parent := some r,
             children := [st.nextNodeId + 3], cachedValid := false } ∧
    nodeFind (on_key Key.K KeyState.Pressed ray st) (st.nextNodeId + 3) =
      some { id := st.nextNodeId + 3, translation := ⟨-1.75, 0, 0⟩,
             scale := ⟨0.75, 0.1, 0.1⟩, parent := some (st.nextNodeId + 2),
             children := [], cachedValid := true } ∧
    (on_key Key.K KeyState.Pressed ray st).constraints = st.constraints ++
      [{ a := st.nextBodyId, b := st.nextBodyId + 1,
         anchorA := ⟨2.5, 0, 0⟩, anchorB := ⟨-2.5, 0, 0⟩ }] :=
  kBranch_effect st ray ent r he hroot hr hwf

/-- C3 witness: the hinge rig spawned over the constructed scene, hitting
the ground at (1,0,−3): exactly one constraint with the documented
anchors is registered between the two new handles. -/
theorem hinge_rig_spawn_shape_witness :
    (on_key Key.K KeyState.Pressed hitGround (constructApp true)).constraints =
      (constructApp true).constraints ++
      [{ a := (constructApp true).nextBodyId,
         b := (constructApp true).nextBodyId + 1,
         anchorA := ⟨2.5, 0, 0⟩, anchorB := ⟨-2.5, 0, 0⟩ }] :=
  (hinge_rig_spawn_shape (constructApp true) hitGround 0 0 rfl rfl (by decide)
    (by decide)).2.2.2.2.2.2.2.2.2.2.2.2.2.2.2

/-- C1 (amended): for the cube, mesh-instance, cylinder and hinge-rig
binds, immediately after the bind the handle resolves to exactly the node
passed to the `add_*` call and the newly created entity's
`PhysicsComponent` holds exactly that handle; the ground-plane bind
stores handle and parent entity the same way, but `add_infinite_plane`
receives no scene node, so the plane's handle resolves to no node. -/
theorem bind_resolves_node_and_component (st : AppState) (ray : QueryResult)
    (ent r : Nat) (he : ray.entity = some ent) (hroot : st.rootNode = some r)
    (hr : r < st.nextNodeId) (hwf : WF st) :
    (get_scene_node (on_key Key.O KeyState.Pressed ray st) st.nextBodyId =
        some st.nextNodeId ∧
      entityFind (on_key Key.O KeyState.Pressed ray st) st.nextEntityId =
        some { id := st.nextEntityId, node := some st.nextNodeId,
               physHandle := some st.nextBodyId, mesh := some MeshKind.cubeM,
               collisionMesh := false }) ∧
    (get_scene_node (on_key Key.L KeyState.Pressed ray st) st.nextBodyId =
        some st.nextNodeId ∧
      entityFind (on_key Key.L KeyState.Pressed ray st) st.nextEntityId =
        some { id := st.nextEntityId, node := some st.nextNodeId,
               physHandle := some st.nextBodyId, mesh := some MeshKind.gltfM,
               collisionMesh := false }) ∧
    (get_scene_node (on_key Key.P KeyState.Pressed ray st) st.nextBodyId =
        some st.nextNodeId ∧
      entityFind (on_key Key.P KeyState.Pressed ray st) st.nextEntityId =
        some { id := st.nextEntityId, node := some st.nextNodeId,
               physHandle := some st.nextBodyId, mesh := some MeshKind.cylinderM,
               collisionMesh := false }) ∧
    (get_scene_node (on_key Key.K KeyState.Pressed ray st) st.nextBodyId =
        some st.nextNodeId ∧
      get_scene_node (on_key Key.K KeyState.Pressed ray st) (st.nextBodyId + 1) =
        some (st.nextNodeId + 2) ∧
      entityFind (on_key Key.K KeyState.Pressed ray st) st.nextEntityId =
        some { id := st.nextEntityId, node := some st.nextNodeId,
               physHandle := some st.nextBodyId, mesh := some MeshKind.cubeM,
               collisionMesh := false } ∧
      entityFind (on_key Key.K KeyState.Pressed ray st) (st.nextEntityId + 2) =
        some { id := st.nextEntityId + 2, node := some (st.nextNodeId + 2),
               physHandle := some (st.nextBodyId + 1), mesh := some MeshKind.cubeM,
               collisionMesh := false }) ∧
    ((entityFind (constructApp true) 0).map Entity.physHandle = some (some 0) ∧
      (bodyFind (constructApp true) 0).map PhysBody.parentEntity = some (some 0) ∧
      get_scene_node (constructApp true) 0 = none) := by
  obtain ⟨ho1, ho2, _⟩ := oBranch_bind st ray ent r he hroot hwf
  obtain ⟨hl1, hl2, _⟩ := lBranch_bind st ray ent r he hroot hwf
  obtain ⟨hp1, hp2, _⟩ := pBranch_bind st ray ent r he hroot hwf
  obtain ⟨_, _, _, _, _, hk6, hk7, hk8, _, hk10, _⟩ :=
    kBranch_effect st ray ent r he hroot hr hwf
  exact ⟨⟨ho1, ho2⟩, ⟨hl1, hl2⟩, ⟨hp1, hp2⟩, ⟨hk6, hk7, hk8, hk10⟩,
    by decide, by decide, by decide⟩

/-- C1 witness: spawning a cube over the constructed scene from a ground
hit: the new handle resolves to the new node. -/
theorem bind_resolves_node_and_component_witness :
    get_scene_node (on_key Key.O KeyState.Pressed hitGround (constructApp true))
        (constructApp true).nextBodyId = some (constructApp true).nextNodeId :=
  (bind_resolves_node_and_component (constructApp true) hitGround 0 0 rfl rfl
    (by decide) (by decide)).1.1

/-- C1 counterexample: the ground-plane bind stores handle 0 on entity 0,
but `add_infinite_plane` is called with a plane equation and no scene
node, so resolving handle 0 yields no scene node at all — the claim's
"resolving the returned physics handle yields exactly the scene node that
was passed" fails for the ground-plane bind. -/
theorem ground_plane_bind_resolves_no_node :
    (entityFind (constructApp true) 0).map Entity.physHandle = some (some 0) ∧
    get_scene_node (constructApp true) 0 = none :=
  ⟨by decide, by decide⟩

theorem find?_not_of_filter {α : Type} (p : α → Bool) (l : List α) :
    (l.filter (fun x => !(p x))).find? p = none := by
  rw [List.find?_eq_none]
  intro x hx hpx
  have hmem := (List.mem_filter.1 hx).2
  rw [hpx] at hmem
  simp at hmem

/-- C7: a removal (key R) on a ray hit whose handle has an associated scene
node destroys the hit's entity; if that node has no children it is
detached from the hierarchy (its parent link cleared and no node keeps it
as a child); if it has children, the scene's nodes are left untouched. -/
theorem removal_hit_with_node (ray : QueryResult) (st : AppState) (ent n : Nat)
    (nd : Node) (hhit : ray.entity = some ent)
    (hnode : getSceneNodeOpt st ray.handle = some n)
    (hfind : st.nodes.find? (fun x => x.id == n) = some nd) :
    (on_key Key.R KeyState.Pressed ray st).entities.find?
        (fun x => x.id == ent) = none ∧
    (nd.children = [] →
      (∀ m ∈ (on_key Key.R KeyState.Pressed ray st).nodes,
        m.id = n → m.parent = none) ∧
      (∀ m ∈ (on_key Key.R KeyState.Pressed ray st).nodes,
        m.id ≠ n → n ∉ m.children)) ∧
    (nd.children ≠ [] → (on_key Key.R KeyState.Pressed ray st).nodes = st.nodes) := by
  have hred : on_key Key.R KeyState.Pressed ray st = rBranch ray st := rfl
  rw [hred]
  simp only [rBranch, hhit, hnode, hfind]
  by_cases hc : nd.children = []
  · have hemp : nd.children.isEmpty = true := by rw [hc]; rfl
    simp only [hemp, if_true, destroyEntity, removeNodeFromHierarchy]
    refine ⟨find?_not_of_filter _ _, fun _ => ⟨?_, ?_⟩, fun hne => absurd hc hne⟩
    · intro m hm hid
      obtain ⟨y, hy, rfl⟩ := List.mem_map.1 hm
      by_cases hyid : (y.id == n) = true
      · rw [if_pos hyid]
      · rw [if_neg hyid] at hid ⊢
        exfalso
        apply hyid
        rw [Nat.beq_eq_true_eq]
        exact hid
    · intro m hm hid hmem
      obtain ⟨y, hy, rfl⟩ := List.mem_map.1 hm
      by_cases hyid : (y.id == n) = true
      · rw [if_pos hyid] at hid
        apply hid
        rw [← Nat.beq_eq_true_eq]
        exact hyid
      · rw [if_neg hyid] at hmem
        have := (List.mem_filter.1 hmem).2
        simp at this
  · have hemp : nd.children.isEmpty = false := by
      cases h : nd.children with
      | nil => exact absurd h hc
      | cons a l => rfl
    simp only [hemp, Bool.false_eq_true, if_false, destroyEntity]
    exact ⟨find?_not_of_filter _ _, fun h => absurd h hc, fun _ => trivial⟩

/-- C7 witness: spawn a cube on the constructed scene, then remove it by
hitting its entity/handle: the entity is gone from the pool. -/
theorem removal_hit_with_node_witness :
    (on_key Key.R KeyState.Pressed
        { entity := some 3, handle := some 2, world_pos := ⟨0, 0, 0⟩ }
        (on_key Key.O KeyState.Pressed hitGround (constructApp true))).entities.find?
      (fun x => x.id == 3) = none :=
  (removal_hit_with_node
    { entity := some 3, handle := some 2, world_pos := ⟨0, 0, 0⟩ }
    (on_key Key.O KeyState.Pressed hitGround (constructApp true)) 3 2
    { id := 2, translation := hitGround.world_pos.add ⟨0, 20, 0⟩,
      scale := ⟨1, 1, 1⟩, parent := some 0, children := [], cachedValid := false }
    rfl rfl rfl).1

theorem inv_of_preserved {s s2 : AppState}
    (hb : s2.bodies = s.bodies) (hc : s2.cameraHandle = s.cameraHandle)
    (h : handleParentInvariantExceptCamera s) :
    handleParentInvariantExceptCamera s2 := by
  intro b hmem hn
  rw [hb] at hmem
  rw [hc]
  exact h b hmem hn

theorem spaceBranch_preserves (st : AppState) :
    (spaceBranch st).bodies = st.bodies ∧
    (spaceBranch st).cameraHandle = st.cameraHandle := by
  unfold spaceBranch
  generalize (st.entities.filterMap fun e => e.physHandle) = hs
  induction hs generalizing st with
  | nil => exact ⟨rfl, rfl⟩
  | cons h t ih =>
    simp only [List.foldl_cons]
    split
    · exact ih (apply_impulse st h ⟨0, 22, -4⟩ ⟨0.2, 0, 0⟩)
    · exact ih st

theorem rBranch_preserves (ray : QueryResult) (st : AppState) :
    (rBranch ray st).bodies = st.bodies ∧
    (rBranch ray st).cameraHandle = st.cameraHandle := by
  unfold rBranch
  constructor <;> (repeat' split) <;> rfl

theorem render_frame_preserves (dt : ℚ) (st : AppState) :
    (render_frame dt st).1.bodies = st.bodies ∧
    (render_frame dt st).1.cameraHandle = st.cameraHandle := by
  simp only [render_frame]
  constructor <;>
    (cases hag : st.applyAntiGravity <;>
      simp_all [foldl_apply_force, setNodeTranslation, physicsIterate,
        update_cached_transforms] <;>
      (split <;> simp_all [setNodeTranslation, physicsIterate,
        update_cached_transforms]))

theorem inv_map_parent_append (cam : Option Nat) (l : List PhysBody)
    (bid e : Nat) (sh : Shape) (nd : Option Nat) (info : MaterialInfo)
    (h : ∀ b ∈ l, b.node.isSome → b.parentEntity.isSome ∨ some b.id = cam) :
    ∀ b ∈ (l ++
        [({ id := bid, shape := sh, node := nd, parentEntity := none,
            info := info } : PhysBody)]).map
        (fun x : PhysBody => if (x.id == bid) = true then
          { x with parentEntity := some e } else x),
      b.node.isSome → b.parentEntity.isSome ∨ some b.id = cam := by
  intro b hb
  obtain ⟨y, hy, rfl⟩ := List.mem_map.1 hb
  rcases List.mem_append.1 hy with hy | hy
  · by_cases hid : (y.id == bid) = true
    · rw [if_pos hid]
      intro _
      left
      rfl
    · rw [if_neg hid]
      exact h y hy
  · have hsing := List.mem_singleton.1 hy
    subst hsing
    simp only [beq_self_eq_true, if_true]
    intro _
    left
    rfl

theorem oBranch_inv (ray : QueryResult) (st : AppState)
    (h : handleParentInvariantExceptCamera st) :
    handleParentInvariantExceptCamera (oBranch ray st) := by
  cases hre : ray.entity with
  | none =>
    simp only [oBranch, hre]
    exact h
  | some e =>
    intro b hb hbn
    cases hro : st.rootNode <;>
      (simp only [oBranch, hre, create_node, setNodeTranslation,
        invalidateCachedTransform, addChildToRoot, hro, add_child,
        create_renderable, add_cube, setEntityHandle, set_handle_parent] at hb ⊢ ;
       exact inv_map_parent_append st.cameraHandle st.bodies st.nextBodyId
         st.nextEntityId Shape.cube (some st.nextNodeId) cubeInfo h b hb hbn)

theorem lBranch_inv (ray : QueryResult) (st : AppState)
    (h : handleParentInvariantExceptCamera st) :
    handleParentInvariantExceptCamera (lBranch ray st) := by
  cases hre : ray.entity with
  | none =>
    simp only [lBranch, hre]
    exact h
  | some e =>
    intro b hb hbn
    cases hro : st.rootNode <;>
      (simp only [lBranch, hre, create_node, setNodeTranslation,
        invalidateCachedTransform, addChildToRoot, hro, add_child,
        create_renderable, add_mesh, setEntityHandle, set_handle_parent] at hb ⊢ ;
       exact inv_map_parent_append st.cameraHandle st.bodies st.nextBodyId
         st.nextEntityId (Shape.meshShape st.gltfMeshPhysicsIndex)
         (some st.nextNodeId) {} h b hb hbn)

theorem pBranch_inv (ray : QueryResult) (st : AppState)
    (h : handleParentInvariantExceptCamera st) :
    handleParentInvariantExceptCamera (pBranch ray st) := by
  cases hre : ray.entity with
  | none =>
    simp only [pBranch, hre]
    exact h
  | some e =>
    intro b hb hbn
    cases hro : st.rootNode <;>
      (simp only [pBranch, hre, create_node, setNodeTranslation,
        invalidateCachedTransform, addChildToRoot, hro, add_child,
        create_renderable, add_cylinder, setEntityHandle, set_handle_parent] at hb ⊢ ;
       exact inv_map_parent_append st.cameraHandle st.bodies st.nextBodyId
         st.nextEntityId (Shape.cylinder 1 0.5) (some st.nextNodeId)
         cylinderInfo h b hb hbn)

theorem kBranch_inv (ray : QueryResult) (st : AppState)
    (h : handleParentInvariantExceptCamera st) :
    handleParentInvariantExceptCamera (kBranch ray st) := by
  cases hre : ray.entity with
  | none =>
    simp only [kBranch, hre]
    exact h
  | some e =>
    intro b hb hbn
    cases hro : st.rootNode <;>
      (simp only [kBranch, hre, create_node, setNodeTranslation, setNodeScale,
        invalidateCachedTransform, addChildToRoot, hro, add_child,
        create_renderable, add_cube, setEntityHandle, set_handle_parent,
        add_point_constraint] at hb ⊢ ;
       exact inv_map_parent_append st.cameraHandle _ _ _ Shape.cube _ cubeInfo
         (inv_map_parent_append st.cameraHandle st.bodies st.nextBodyId
           st.nextEntityId Shape.cube (some st.nextNodeId) cubeInfo h) b hb hbn)

/-- C8 (amended): the handle→owning-entity registration invariant, as the
code realises it: it holds for every handle with an associated node
except the camera's kinematic proxy (never registered); it holds after
construction and is preserved by every key event and every rendered
frame. -/
theorem handle_parent_registered_invariant (ok : Bool) (k : Key) (ks : KeyState)
    (ray : QueryResult) (dt : ℚ) (st : AppState)
    (hinv : handleParentInvariantExceptCamera st) :
    handleParentInvariantExceptCamera (constructApp ok) ∧
    handleParentInvariantExceptCamera (on_key k ks ray st) ∧
    handleParentInvariantExceptCamera (render_frame dt st).1 := by
  refine ⟨?_, ?_, ?_⟩
  · cases ok <;> decide
  · cases k <;> cases ks <;>
      first
        | exact hinv
        | exact inv_of_preserved (spaceBranch_preserves _).1
            (spaceBranch_preserves _).2 hinv
        | exact inv_of_preserved (rBranch_preserves ray st).1
            (rBranch_preserves ray st).2 hinv
        | exact oBranch_inv ray st hinv
        | exact lBranch_inv ray st hinv
        | exact kBranch_inv ray st hinv
        | exact pBranch_inv ray st hinv
  · exact inv_of_preserved (render_frame_preserves dt st).1
      (render_frame_preserves dt st).2 hinv

/-- C8 witness: the invariant holds for the constructed scene and after a
concrete cube spawn on it. -/
theorem handle_parent_registered_invariant_witness :
    handleParentInvariantExceptCamera (constructApp true) ∧
    handleParentInvariantExceptCamera
      (on_key Key.O KeyState.Pressed hitGround (constructApp true)) :=
  ⟨(handle_parent_registered_invariant true Key.O KeyState.Pressed hitGround 1
      (constructApp true) (by decide)).1,
   (handle_parent_registered_invariant true Key.O KeyState.Pressed hitGround 1
      (constructApp true) (by decide)).2.1⟩

/-- C8 counterexample: as stated the invariant fails — the camera's
kinematic sphere body is associated with the camera node, but
`set_handle_parent` is never called for it, so it has no owning entity
registered. -/
theorem camera_handle_lacks_parent_entity :
    ¬ handleParentInvariant (constructApp true) := by
  decide
